import Mathlib

/-!
Verification development for the solar-system-model repository.

The repository animates a hierarchical scene graph: each body owns an
orbit group (rotation about the world y axis), which contains a body
group (y rotation plus the fixed z rotation applied once by applyTilt),
which contains the sphere mesh (its own y rotation carries the daily
spin).  The definitions below are shallow embeddings of the relevant
source functions over the real numbers: angles and speeds are reals,
THREE vectors become the Vec3 structure, and THREE rotation helpers
become the corresponding rotation formulas used by the library.
-/

namespace SolarSystemModel

open Real

/-- 3D vector with real components, modelling THREE.Vector3. -/
structure Vec3 where
  x : ℝ
  y : ℝ
  z : ℝ

namespace Vec3

/-- Componentwise addition. -/
def add (a b : Vec3) : Vec3 := ⟨a.x + b.x, a.y + b.y, a.z + b.z⟩

/-- Scalar multiple. -/
def smul (c : ℝ) (a : Vec3) : Vec3 := ⟨c * a.x, c * a.y, c * a.z⟩

/-- Dot product, modelling THREE.Vector3.dot. -/
def dot (a b : Vec3) : ℝ := a.x * b.x + a.y * b.y + a.z * b.z

/-- Cross product, modelling THREE.Vector3.crossVectors. -/
def cross (a b : Vec3) : Vec3 :=
  ⟨a.y * b.z - a.z * b.y, a.z * b.x - a.x * b.z, a.x * b.y - a.y * b.x⟩

/-- Euclidean length, modelling THREE.Vector3.length. -/
noncomputable def length (a : Vec3) : ℝ := Real.sqrt (dot a a)

/-- Normalization, modelling THREE.Vector3.normalize, which divides by
the length unless the length is zero (the source guards the division
with a fallback divisor of one, leaving the zero vector unchanged). -/
noncomputable def normalize (a : Vec3) : Vec3 :=
  if length a = 0 then a else ⟨a.x / length a, a.y / length a, a.z / length a⟩

@[simp] theorem add_x (a b : Vec3) : (add a b).x = a.x + b.x := rfl
@[simp] theorem add_y (a b : Vec3) : (add a b).y = a.y + b.y := rfl
@[simp] theorem add_z (a b : Vec3) : (add a b).z = a.z + b.z := rfl
@[simp] theorem smul_x (c : ℝ) (a : Vec3) : (smul c a).x = c * a.x := rfl
@[simp] theorem smul_y (c : ℝ) (a : Vec3) : (smul c a).y = c * a.y := rfl
@[simp] theorem smul_z (c : ℝ) (a : Vec3) : (smul c a).z = c * a.z := rfl

theorem ext_iff {a b : Vec3} : a = b ↔ a.x = b.x ∧ a.y = b.y ∧ a.z = b.z := by
  constructor
  · intro h; subst h; exact ⟨rfl, rfl, rfl⟩
  · rintro ⟨hx, hy, hz⟩
    cases a; cases b
    simp only at hx hy hz
    simp [hx, hy, hz]

end Vec3

/-- Degrees to radians, modelling THREE.MathUtils.degToRad. -/
noncomputable def degToRad (degrees : ℝ) : ℝ := degrees * (Real.pi / 180)

/-- Rotation of a vector about the y axis by an angle, the matrix
produced by THREE for a group whose Euler rotation has only a y
component. -/
noncomputable def rotY (theta : ℝ) (v : Vec3) : Vec3 :=
  ⟨Real.cos theta * v.x + Real.sin theta * v.z,
   v.y,
   -Real.sin theta * v.x + Real.cos theta * v.z⟩

/-- Rotation of a vector about the z axis by an angle, the z factor of
the Euler XYZ rotation THREE builds for a group (applyTilt stores the
axial tilt in rotation.z). -/
noncomputable def rotZ (theta : ℝ) (v : Vec3) : Vec3 :=
  ⟨Real.cos theta * v.x - Real.sin theta * v.y,
   Real.sin theta * v.x + Real.cos theta * v.y,
   v.z⟩

theorem rotY_rotY (a b : ℝ) (v : Vec3) : rotY a (rotY b v) = rotY (a + b) v := by
  rw [Vec3.ext_iff]
  refine ⟨?_, rfl, ?_⟩ <;>
    · simp only [rotY, Real.cos_add, Real.sin_add]
      ring

/-- Mutable per-body state of the Planet class (lib-planet.js): the
configuration stored by the constructor together with the scene-graph
angles the update method mutates.  orbitGroupRotY is orbitGroup
rotation.y, groupRotY is group rotation.y (the tilt-carrying frame),
sphereRotY is sphere rotation.y (the daily spin). -/
structure BodyState where
  radius : ℝ
  axialTilt : ℝ
  orbitRadius : ℝ
  rotationPeriod : ℝ
  maxRotationPeriod : ℝ
  orbitalPeriod : ℝ
  maxOrbitalPeriod : ℝ
  rotationEnabled : Bool
  orbitEnabled : Bool
  rotationSpeed : ℝ
  orbitSpeed : ℝ
  sphereRotY : ℝ
  orbitGroupRotY : ℝ
  groupRotY : ℝ

namespace Planet

/-- Planet.update(time) from lib-planet.js: when rotation is enabled and
the rotation speed is positive it advances the sphere y rotation; when
orbit is enabled and the orbit speed is positive it advances the orbit
group y rotation and counter-rotates the body group by the same delta.
The time argument is received but never read. -/
noncomputable def update (_time : ℝ) (s : BodyState) : BodyState :=
  let s1 :=
    if s.rotationEnabled ∧ s.rotationSpeed > 0 then
      { s with sphereRotY := s.sphereRotY + s.rotationSpeed }
    else s
  if s1.orbitEnabled ∧ s1.orbitSpeed > 0 then
    let previousOrbitAngle := s1.orbitGroupRotY
    let newOrbitAngle := s1.orbitGroupRotY + s1.orbitSpeed
    let deltaAngle := newOrbitAngle - previousOrbitAngle
    { s1 with orbitGroupRotY := newOrbitAngle, groupRotY := s1.groupRotY - deltaAngle }
  else s1

end Planet

namespace Earth

/-- Earth.update(time) from lib-earth.js, textually the same algorithm
as Planet.update: spin branch on the sphere, orbit branch on the orbit
group with the counter-rotation of the Earth group. -/
noncomputable def update (_time : ℝ) (s : BodyState) : BodyState :=
  let s1 :=
    if s.rotationEnabled ∧ s.rotationSpeed > 0 then
      { s with sphereRotY := s.sphereRotY + s.rotationSpeed }
    else s
  if s1.orbitEnabled ∧ s1.orbitSpeed > 0 then
    let previousOrbitAngle := s1.orbitGroupRotY
    let newOrbitAngle := s1.orbitGroupRotY + s1.orbitSpeed
    let deltaAngle := newOrbitAngle - previousOrbitAngle
    { s1 with orbitGroupRotY := newOrbitAngle, groupRotY := s1.groupRotY - deltaAngle }
  else s1

end Earth

/-- World-space direction of the body tilt axis.  The axis cylinder is a
child of the body group, aligned with the local y axis; the body group
carries rotation.y = groupRotY and rotation.z = degToRad axialTilt
(applyTilt), and sits inside the orbit group with rotation.y =
orbitGroupRotY.  Translations do not affect directions, so the world
direction is the composite rotation applied to (0, 1, 0). -/
noncomputable def axisWorldDirection (s : BodyState) : Vec3 :=
  rotY s.orbitGroupRotY (rotY s.groupRotY (rotZ (degToRad s.axialTilt) ⟨0, 1, 0⟩))

theorem update_preserves_angle_sum (t : ℝ) (s : BodyState) :
    (Planet.update t s).orbitGroupRotY + (Planet.update t s).groupRotY =
      s.orbitGroupRotY + s.groupRotY ∧
    (Planet.update t s).axialTilt = s.axialTilt ∧
    (Planet.update t s).rotationEnabled = s.rotationEnabled := by
  unfold Planet.update
  by_cases h1 : s.rotationEnabled ∧ s.rotationSpeed > 0 <;>
    by_cases h2 : s.orbitEnabled ∧ s.orbitSpeed > 0 <;>
      simp [h1, h2] <;> ring

theorem axisWorldDirection_eq (s : BodyState) :
    axisWorldDirection s =
      rotY (s.orbitGroupRotY + s.groupRotY) (rotZ (degToRad s.axialTilt) ⟨0, 1, 0⟩) := by
  unfold axisWorldDirection
  exact rotY_rotY _ _ _

/-- C1: tilt invariance.  For any body state with spin disabled and any
finite sequence of animation ticks (each tick calls Planet.update with
some time argument), the world-space direction of the tilt axis after
the ticks equals its direction before them: the counter-rotation of the
tilt-carrying group cancels the orbit-group rotation exactly, so the
difference is zero, below any epsilon. -/
theorem C1_tilt_axis_direction_invariant (s : BodyState) (ts : List ℝ)
    (h : s.rotationEnabled = false) :
    axisWorldDirection (ts.foldl (fun st t => Planet.update t st) s) =
      axisWorldDirection s := by
  induction ts generalizing s with
  | nil => rfl
  | cons t ts ih =>
      have hstep := update_preserves_angle_sum t s
      have hrec := ih (Planet.update t s) (by rw [hstep.2.2]; exact h)
      rw [List.foldl_cons, hrec, axisWorldDirection_eq, axisWorldDirection_eq s,
        hstep.1, hstep.2.1]

/-- Witness for C1 at a concrete orbit-enabled, spin-disabled state and
three ticks. -/
theorem C1_tilt_axis_direction_invariant_witness :
    ({ radius := 6000, axialTilt := 25, orbitRadius := 114000,
       rotationPeriod := 1, maxRotationPeriod := 1,
       orbitalPeriod := 1, maxOrbitalPeriod := 1,
       rotationEnabled := false, orbitEnabled := true,
       rotationSpeed := 0, orbitSpeed := 1,
       sphereRotY := 0, orbitGroupRotY := 0, groupRotY := 0 } : BodyState).rotationEnabled
        = false ∧
    axisWorldDirection
      ([0, 1, 2].foldl (fun st t => Planet.update t st)
        { radius := 6000, axialTilt := 25, orbitRadius := 114000,
          rotationPeriod := 1, maxRotationPeriod := 1,
          orbitalPeriod := 1, maxOrbitalPeriod := 1,
          rotationEnabled := false, orbitEnabled := true,
          rotationSpeed := 0, orbitSpeed := 1,
          sphereRotY := 0, orbitGroupRotY := 0, groupRotY := 0 }) =
    axisWorldDirection
      { radius := 6000, axialTilt := 25, orbitRadius := 114000,
        rotationPeriod := 1, maxRotationPeriod := 1,
        orbitalPeriod := 1, maxOrbitalPeriod := 1,
        rotationEnabled := false, orbitEnabled := true,
        rotationSpeed := 0, orbitSpeed := 1,
        sphereRotY := 0, orbitGroupRotY := 0, groupRotY := 0 } :=
  ⟨rfl, C1_tilt_axis_direction_invariant _ _ rfl⟩

/-- C10: Planet.update and Earth.update are deterministic and ignore
their time argument: applied to the same state with any two time values
they produce identical successor states. -/
theorem C10_update_ignores_time (t1 t2 : ℝ) (s : BodyState) :
    Planet.update t1 s = Planet.update t2 s ∧ Earth.update t1 s = Earth.update t2 s :=
  ⟨rfl, rfl⟩

/-- C6: for a body configured with radius 6000, axial tilt 25 degrees,
orbit radius 114000, orbit enabled at orbit speed 0.01 and spin
disabled, one update call advances the orbit-group y rotation by exactly
0.01 and decreases the tilt-carrying body-group y rotation by exactly
0.01. -/
theorem C6_one_tick_orbit_scenario (t : ℝ) (s : BodyState)
    (hr : s.radius = 6000) (ht : s.axialTilt = 25) (ho : s.orbitRadius = 114000)
    (he : s.orbitEnabled = true) (hs : s.orbitSpeed = 0.01)
    (hspin : s.rotationEnabled = false) :
    (Planet.update t s).orbitGroupRotY = s.orbitGroupRotY + 0.01 ∧
    (Planet.update t s).groupRotY = s.groupRotY - 0.01 := by
  norm_num [Planet.update, hspin, he, hs]

/-- Witness for C6 at a concrete state. -/
theorem C6_one_tick_orbit_scenario_witness :
    (Planet.update 0
      { radius := 6000, axialTilt := 25, orbitRadius := 114000,
        rotationPeriod := 1, maxRotationPeriod := 1,
        orbitalPeriod := 1, maxOrbitalPeriod := 1,
        rotationEnabled := false, orbitEnabled := true,
        rotationSpeed := 0, orbitSpeed := 0.01,
        sphereRotY := 0, orbitGroupRotY := 0, groupRotY := 0 }).orbitGroupRotY = 0 + 0.01 ∧
    (Planet.update 0
      { radius := 6000, axialTilt := 25, orbitRadius := 114000,
        rotationPeriod := 1, maxRotationPeriod := 1,
        orbitalPeriod := 1, maxOrbitalPeriod := 1,
        rotationEnabled := false, orbitEnabled := true,
        rotationSpeed := 0, orbitSpeed := 0.01,
        sphereRotY := 0, orbitGroupRotY := 0, groupRotY := 0 }).groupRotY = 0 - 0.01 :=
  C6_one_tick_orbit_scenario 0 _ rfl rfl rfl rfl rfl rfl

/-- Two-segment mapping from a 0..100 slider value to an angular rate,
as implemented by the rotation and orbit speed slider handlers
(Sun.createRotationSection in lib-planet.js, Earth.createRotationSection,
and the per-planet orbit sliders): value 0 gives rate 0; values up to 50
scale the base rate 2 pi / (period * 60) linearly; values above 50
shorten the period linearly from period down to maxPeriod. -/
noncomputable def sliderToRate (period maxPeriod value : ℝ) : ℝ :=
  if value = 0 then 0
  else if value ≤ 50 then
    2 * Real.pi / (period * 60) * (value / 50)
  else
    2 * Real.pi / ((period - (period - maxPeriod) * ((value - 50) / 50)) * 60)

/-- Rotation-period ratio of the Sun relative to Earth, from
Planet.calculateRelativePeriods applied to the Sun fact data: the Sun
rotation period is 28 days = 28 * 24 hours, Earth reference is 23.93
hours. -/
noncomputable def sunRelativeRotation : ℝ := (28 * 24) / 23.93

/-- The Sun state as built by the Sun constructor in lib-planet.js with
its nonScaleModelData: diameter 1391400 / 50, axial tilt 7.25, orbit
radius 0, rotation period 28 * ratio, max rotation period 2.8 * ratio,
orbital periods 0, and the constructor override orbitEnabled = false,
orbitSpeed = 0.  All scene-graph angles start at 0. -/
noncomputable def sunInitial : BodyState :=
  { radius := 1391400 / 50 / 2,
    axialTilt := 7.25,
    orbitRadius := 0,
    rotationPeriod := 28 * sunRelativeRotation,
    maxRotationPeriod := 2.8 * sunRelativeRotation,
    orbitalPeriod := 0,
    maxOrbitalPeriod := 0,
    rotationEnabled := false,
    orbitEnabled := false,
    rotationSpeed := 2 * Real.pi / ((28 * sunRelativeRotation) * 60),
    orbitSpeed := 0,
    sphereRotY := 0,
    orbitGroupRotY := 0,
    groupRotY := 0 }

/-- The operations the program performs on the Sun instance: animation
ticks (SolarSystem.update calls sun.update), the rotation toggle
handler, and the rotation speed slider handler (which also flips the
enabled flag on when moved off zero).  No code path assigns the orbit
fields of the Sun: the Sun console has no orbit section and the Sun is
not in the planets list the global orbit controls iterate over. -/
inductive SunOp where
  | update (time : ℝ)
  | setRotationEnabled (checked : Bool)
  | rotationSliderInput (value : ℝ)

/-- Effect of one Sun operation on the Sun state. -/
noncomputable def applySunOp (s : BodyState) : SunOp → BodyState
  | .update t => Planet.update t s
  | .setRotationEnabled b => { s with rotationEnabled := b }
  | .rotationSliderInput v =>
      let s1 := { s with rotationSpeed := sliderToRate s.rotationPeriod s.maxRotationPeriod v }
      if v > 0 ∧ s1.rotationEnabled = false then { s1 with rotationEnabled := true } else s1

/-- Run a sequence of Sun operations. -/
noncomputable def runSunOps (ops : List SunOp) (s : BodyState) : BodyState :=
  ops.foldl applySunOp s

theorem applySunOp_orbit_fields (s : BodyState) (op : SunOp)
    (h : s.orbitEnabled = false) :
    (applySunOp s op).orbitEnabled = false ∧
    (applySunOp s op).orbitSpeed = s.orbitSpeed ∧
    (applySunOp s op).orbitGroupRotY = s.orbitGroupRotY := by
  cases op with
  | update t =>
      simp only [applySunOp, Planet.update]
      by_cases h1 : s.rotationEnabled = true ∧ s.rotationSpeed > 0 <;> simp [h1, h]
  | setRotationEnabled b => simp [applySunOp, h]
  | rotationSliderInput v =>
      simp only [applySunOp]
      by_cases h1 : v > 0 ∧ s.rotationEnabled = false <;> simp [h1, h]

/-- C5 counterexample: Planet.update never inspects orbitRadius, so a
state with orbitRadius = 0 but orbitEnabled = true and a positive orbit
speed does change its orbit angle under one update call, contradicting
the claim quantified over all orbitEnabled and orbitSpeed values. -/
theorem C5_zero_orbit_radius_counterexample :
    ({ sunInitial with orbitEnabled := true, orbitSpeed := 0.01 } : BodyState).orbitRadius = 0 ∧
    ¬ ((Planet.update 0 { sunInitial with orbitEnabled := true, orbitSpeed := 0.01 }).orbitGroupRotY
        = ({ sunInitial with orbitEnabled := true, orbitSpeed := 0.01 } : BodyState).orbitGroupRotY) := by
  constructor
  · rfl
  · norm_num [Planet.update, sunInitial]

/-- C5 amended: starting from the constructed Sun state (orbitEnabled
false, orbitSpeed 0, orbit angle 0), every sequence of the operations
the program performs on the Sun — update ticks, rotation toggle writes,
rotation slider writes — leaves the orbit-group rotation angle at 0, and
the orbit fields keep their constructed values. -/
theorem C5_sun_orbit_angle_stays_zero (ops : List SunOp) :
    (runSunOps ops sunInitial).orbitGroupRotY = 0 ∧
    (runSunOps ops sunInitial).orbitEnabled = false ∧
    (runSunOps ops sunInitial).orbitSpeed = 0 := by
  suffices h : ∀ s : BodyState, s.orbitEnabled = false → s.orbitSpeed = 0 →
      s.orbitGroupRotY = 0 →
      (runSunOps ops s).orbitGroupRotY = 0 ∧ (runSunOps ops s).orbitEnabled = false ∧
      (runSunOps ops s).orbitSpeed = 0 by
    exact h sunInitial rfl rfl rfl
  induction ops with
  | nil => intro s h1 h2 h3; exact ⟨h3, h1, h2⟩
  | cons op ops ih =>
      intro s h1 h2 h3
      have hop := applySunOp_orbit_fields s op h1
      exact ih (applySunOp s op) hop.1 (hop.2.1.trans h2) (hop.2.2.trans h3)

/-- Local offset of a surface location, from LocationMarker.updatePosition
in lib-locations.js: latitude and the negated longitude are converted to
radians and mapped through the standard spherical-to-Cartesian
conversion at radius planetRadius + altitude. -/
noncomputable def updatePositionOffset (latitude longitude altitude planetRadius : ℝ) : Vec3 :=
  let latRad := degToRad latitude
  let adjustedLon := -longitude
  let lonRad := degToRad adjustedLon
  let r := planetRadius + altitude
  ⟨r * Real.cos latRad * Real.cos lonRad,
   r * Real.sin latRad,
   r * Real.cos latRad * Real.sin lonRad⟩

theorem updatePositionOffset_length (lat lon alt radius : ℝ) (h : 0 ≤ radius + alt) :
    Vec3.length (updatePositionOffset lat lon alt radius) = radius + alt := by
  have h1 := Real.sin_sq_add_cos_sq (degToRad lat)
  have h2 := Real.sin_sq_add_cos_sq (degToRad (-lon))
  have hdot : Vec3.dot (updatePositionOffset lat lon alt radius)
      (updatePositionOffset lat lon alt radius) = (radius + alt) ^ 2 := by
    simp only [updatePositionOffset, Vec3.dot]
    linear_combination ((radius + alt) ^ 2 * (Real.cos (degToRad lat)) ^ 2) * h2 +
      (radius + alt) ^ 2 * h1
  rw [Vec3.length, hdot]
  exact Real.sqrt_sq h

/-- C7: the surface-location offset is the spherical-to-Cartesian
conversion with negated longitude: its components follow the documented
formulas with r = radius + altitude, its length is exactly r, and at
latitude 47.5, longitude 19.0, altitude 0 on a body of radius 6000 the
offset magnitude is 6000. -/
theorem C7_location_offset (lat lon alt radius : ℝ) (h : 0 ≤ radius + alt) :
    Vec3.length (updatePositionOffset lat lon alt radius) = radius + alt ∧
    (updatePositionOffset lat lon alt radius).x =
      (radius + alt) * Real.cos (degToRad lat) * Real.cos (degToRad (-lon)) ∧
    (updatePositionOffset lat lon alt radius).y =
      (radius + alt) * Real.sin (degToRad lat) ∧
    (updatePositionOffset lat lon alt radius).z =
      (radius + alt) * Real.cos (degToRad lat) * Real.sin (degToRad (-lon)) ∧
    Vec3.length (updatePositionOffset 47.5 19.0 0 6000) = 6000 := by
  refine ⟨updatePositionOffset_length lat lon alt radius h, rfl, rfl, rfl, ?_⟩
  have := updatePositionOffset_length 47.5 19.0 0 6000 (by norm_num)
  simpa using this

/-- Witness for C7 with the scenario inputs. -/
theorem C7_location_offset_witness :
    0 ≤ (6000 : ℝ) + 0 ∧
    (Vec3.length (updatePositionOffset 47.5 19.0 0 6000) = 6000 + 0 ∧
    (updatePositionOffset 47.5 19.0 0 6000).x =
      ((6000 : ℝ) + 0) * Real.cos (degToRad 47.5) * Real.cos (degToRad (-19.0)) ∧
    (updatePositionOffset 47.5 19.0 0 6000).y =
      ((6000 : ℝ) + 0) * Real.sin (degToRad 47.5) ∧
    (updatePositionOffset 47.5 19.0 0 6000).z =
      ((6000 : ℝ) + 0) * Real.cos (degToRad 47.5) * Real.sin (degToRad (-19.0)) ∧
    Vec3.length (updatePositionOffset 47.5 19.0 0 6000) = 6000) :=
  ⟨by norm_num, C7_location_offset 47.5 19.0 0 6000 (by norm_num)⟩

theorem adjustedPeriod_bounds (p m v : ℝ) (hm : 0 < m) (hmp : m < p)
    (h50 : 50 < v) (h100 : v ≤ 100) :
    m ≤ p - (p - m) * ((v - 50) / 50) ∧ p - (p - m) * ((v - 50) / 50) < p := by
  have ht0 : 0 < (v - 50) / 50 := div_pos (by linarith) (by norm_num)
  have ht1 : (v - 50) / 50 ≤ 1 := by
    rw [div_le_one (by norm_num : (0:ℝ) < 50)]; linarith
  constructor
  · nlinarith [mul_nonneg (sub_nonneg.mpr hmp.le) (sub_nonneg.mpr ht1)]
  · nlinarith [mul_pos (sub_pos.mpr hmp) ht0]

theorem adjustedPeriod_antitone (p m v1 v2 : ℝ) (hmp : m < p)
    (h1 : 50 < v1) (h12 : v1 < v2) :
    p - (p - m) * ((v2 - 50) / 50) < p - (p - m) * ((v1 - 50) / 50) := by
  have ht : (v1 - 50) / 50 < (v2 - 50) / 50 := by
    apply div_lt_div_of_pos_right _ (by norm_num)
    linarith
  nlinarith [mul_pos (sub_pos.mpr hmp) (sub_pos.mpr ht)]

/-- C2: the two-segment slider-to-rate mapping, for period > maxPeriod >
0: value 0 gives rate 0, values in (0, 50] give baseRate scaled by
value / 50, values above 50 give 2 pi over the linearly adjusted period
times 60; both branch formulas yield the base rate at value 50; and the
mapping is strictly increasing on (0, 100]. -/
theorem C2_slider_rate_mapping (p m v1 v2 : ℝ) (hm : 0 < m) (hmp : m < p) :
    sliderToRate p m 0 = 0 ∧
    (0 < v1 → v1 ≤ 50 → sliderToRate p m v1 = 2 * Real.pi / (p * 60) * (v1 / 50)) ∧
    (50 < v1 → sliderToRate p m v1 =
      2 * Real.pi / ((p - (p - m) * ((v1 - 50) / 50)) * 60)) ∧
    sliderToRate p m 50 = 2 * Real.pi / (p * 60) ∧
    2 * Real.pi / ((p - (p - m) * ((50 - 50) / 50)) * 60) = 2 * Real.pi / (p * 60) ∧
    (0 < v1 → v1 < v2 → v2 ≤ 100 → sliderToRate p m v1 < sliderToRate p m v2) := by
  have hp : 0 < p := lt_trans hm hmp
  have hbase : 0 < 2 * Real.pi / (p * 60) := by positivity
  have hlow : ∀ v : ℝ, 0 < v → v ≤ 50 →
      sliderToRate p m v = 2 * Real.pi / (p * 60) * (v / 50) := by
    intro v hv h50
    rw [sliderToRate, if_neg (ne_of_gt hv), if_pos h50]
  have hhigh : ∀ v : ℝ, 50 < v →
      sliderToRate p m v = 2 * Real.pi / ((p - (p - m) * ((v - 50) / 50)) * 60) := by
    intro v h50
    rw [sliderToRate, if_neg (ne_of_gt (by linarith : (0:ℝ) < v)), if_neg (not_le.mpr h50)]
  have hhigh_gt_base : ∀ v : ℝ, 50 < v → v ≤ 100 →
      2 * Real.pi / (p * 60) < sliderToRate p m v := by
    intro v h50 h100
    rw [hhigh v h50]
    have hb := adjustedPeriod_bounds p m v hm hmp h50 h100
    have hadj : 0 < p - (p - m) * ((v - 50) / 50) := lt_of_lt_of_le hm hb.1
    apply div_lt_div_of_pos_left (by positivity) (mul_pos hadj (by norm_num))
    nlinarith [hb.2]
  refine ⟨by simp [sliderToRate], hlow v1, hhigh v1, ?_, ?_, ?_⟩
  · rw [hlow 50 (by norm_num) le_rfl]; norm_num
  · norm_num
  · intro h01 h12 h100
    rcases le_or_lt v2 50 with h2le | h2gt
    · rw [hlow v1 h01 (le_trans h12.le h2le), hlow v2 (lt_trans h01 h12) h2le]
      have : v1 / 50 < v2 / 50 := by
        apply div_lt_div_of_pos_right h12 (by norm_num)
      exact mul_lt_mul_of_pos_left this hbase
    · rcases le_or_lt v1 50 with h1le | h1gt
      · rw [hlow v1 h01 h1le]
        calc 2 * Real.pi / (p * 60) * (v1 / 50) ≤ 2 * Real.pi / (p * 60) * 1 := by
              apply mul_le_mul_of_nonneg_left _ hbase.le
              rw [div_le_one (by norm_num : (0:ℝ) < 50)]; linarith
          _ = 2 * Real.pi / (p * 60) := mul_one _
          _ < sliderToRate p m v2 := hhigh_gt_base v2 h2gt h100
      · rw [hhigh v1 h1gt, hhigh v2 (lt_trans h1gt h12)]
        have hb1 := adjustedPeriod_bounds p m v1 hm hmp h1gt (by linarith)
        have hb2 := adjustedPeriod_bounds p m v2 hm hmp (lt_trans h1gt h12) h100
        have hanti := adjustedPeriod_antitone p m v1 v2 hmp h1gt h12
        have hadj2 : 0 < p - (p - m) * ((v2 - 50) / 50) := lt_of_lt_of_le hm hb2.1
        apply div_lt_div_of_pos_left (by positivity) (mul_pos hadj2 (by norm_num))
        nlinarith

/-- Witness for C2 with period 2, maxPeriod 1, slider values 30 and 60. -/
theorem C2_slider_rate_mapping_witness :
    0 < (1 : ℝ) ∧ (1 : ℝ) < 2 ∧
    (sliderToRate 2 1 0 = 0 ∧
    (0 < (30 : ℝ) → (30 : ℝ) ≤ 50 →
      sliderToRate 2 1 30 = 2 * Real.pi / (2 * 60) * (30 / 50)) ∧
    ((50 : ℝ) < 30 → sliderToRate 2 1 30 =
      2 * Real.pi / ((2 - (2 - 1) * ((30 - 50) / 50)) * 60)) ∧
    sliderToRate 2 1 50 = 2 * Real.pi / (2 * 60) ∧
    2 * Real.pi / ((2 - (2 - 1) * (((50 : ℝ) - 50) / 50)) * 60) = 2 * Real.pi / (2 * 60) ∧
    (0 < (30 : ℝ) → (30 : ℝ) < 60 → (60 : ℝ) ≤ 100 →
      sliderToRate 2 1 30 < sliderToRate 2 1 60)) :=
  ⟨by norm_num, by norm_num, C2_slider_rate_mapping 2 1 30 60 (by norm_num) (by norm_num)⟩

/-- Per-location camera settings entry stored in the keyed map
(locationSettings[locationId] in the second LocationCamera revision). -/
structure CamSettings where
  horizontalAngle : ℝ
  verticalAngle : ℝ
  elevation : ℝ

/-- A location marker as far as the camera is concerned: its name (the
settings key is the lowercased name) and whether its mesh exists (the
activation guard checks location and location.mesh). -/
structure Location where
  name : String
  hasMesh : Bool

/-- State of the second-revision LocationCamera together with the
module-level camera and controls globals it reads and writes.  The
THREE camera objects are tracked by identity only: originalCameraSet
records whether this.originalCamera holds a camera,
cameraIsLocationCamera records whether the global camera variable
currently points at this.locationCamera, hasLocationCamera whether
this.locationCamera exists.  The pose written onto the THREE camera
each update is the pure geometry modelled separately below by the
rotated-east and offset functions; it lives on the camera object, not
in this record. -/
structure LocationCameraState where
  isActive : Bool
  activeLocation : Option Location
  hasLocationCamera : Bool
  earthSet : Bool
  cameraHorizontalAngle : ℝ
  cameraVerticalAngle : ℝ
  cameraElevation : ℝ
  viewDirection : ℝ
  locationSettings : String → Option CamSettings
  solarSystemSettings : Option (String → Option CamSettings)
  defaultHorizontalAngle : ℝ
  defaultVerticalAngle : ℝ
  defaultElevation : ℝ
  controlsEnabled : Bool
  originalControlsEnabled : Option Bool
  controlsTarget : Vec3
  cameraIsLocationCamera : Bool
  originalCameraSet : Bool
  pendingControlsEnable : Bool

/-- Lowercase settings key derived from a location name, modelling the
toLowerCase call on options.name that builds locationId: each character
is mapped to its lowercase form. -/
def lowerKey (s : String) : String := ⟨s.data.map Char.toLower⟩

/-- The vertical-angle clamp applied at the end of updateView and by the
camera arrow buttons: Math.max(-PI/2 + 0.1, Math.min(PI/2 - 0.1, x)). -/
noncomputable def clampVerticalAngle (x : ℝ) : ℝ :=
  max (-(Real.pi / 2) + 0.1) (min (Real.pi / 2 - 0.1) x)

/-- LocationCamera.updateView, second revision: after the guard on
isActive, locationCamera, activeLocation and earth, it first saves the
current angles and elevation into the keyed settings map, then computes
and writes the camera pose from the scene (using the current, possibly
unclamped, vertical angle), then clamps the stored vertical angle for
the next frame and mirrors the horizontal angle into the legacy
viewDirection field. -/
noncomputable def updateView (s : LocationCameraState) : LocationCameraState :=
  match s.activeLocation with
  | none => s
  | some loc =>
    if !s.isActive || !s.hasLocationCamera || !s.earthSet then s
    else
      let locationId := lowerKey loc.name
      let entry : CamSettings :=
        ⟨s.cameraHorizontalAngle, s.cameraVerticalAngle, s.cameraElevation⟩
      let s1 := { s with locationSettings := fun k =>
        if k = locationId then some entry else s.locationSettings k }
      let s2 := { s1 with cameraVerticalAngle := clampVerticalAngle s1.cameraVerticalAngle }
      { s2 with viewDirection := s2.cameraHorizontalAngle }

/-- LocationCamera.deactivateView, second revision: a guarded no-op when
inactive; otherwise clears the active flags, restores the original
camera and controls state, and schedules the zero-delay deferred
controls re-enable. -/
noncomputable def deactivateView (s : LocationCameraState) : LocationCameraState :=
  if !s.isActive then s
  else
    let s1 := { s with isActive := false, activeLocation := none }
    let s2 :=
      if s1.originalCameraSet then
        { s1 with cameraIsLocationCamera := false,
                  controlsTarget := ⟨0, 0, 0⟩,
                  controlsEnabled := s1.originalControlsEnabled.getD true }
      else s1
    { s2 with pendingControlsEnable := true }

/-- LocationCamera.activateView, second revision: guard on earth and the
location mesh; deactivate any active view first; store the original
camera and build the location camera; restore the stored per-location
settings if present, else fall back to the solar-system settings or the
defaults and record the initial entry; mirror viewDirection; swap the
global camera; run updateView; then save and disable the controls. -/
noncomputable def activateView (loc : Location) (s : LocationCameraState) :
    LocationCameraState :=
  if !s.earthSet || !loc.hasMesh then s
  else
    let s1 := if s.isActive then deactivateView s else s
    let s2 := { s1 with originalCameraSet := true, hasLocationCamera := true,
                        activeLocation := some loc, isActive := true }
    let locationId := lowerKey loc.name
    let s3 :=
      match s2.locationSettings locationId with
      | some stored =>
          { s2 with cameraHorizontalAngle := stored.horizontalAngle,
                    cameraVerticalAngle := stored.verticalAngle,
                    cameraElevation := stored.elevation }
      | none =>
          let chosen : CamSettings :=
            match s2.solarSystemSettings with
            | some sys =>
                match sys locationId with
                | some cs => cs
                | none => ⟨s2.defaultHorizontalAngle, s2.defaultVerticalAngle,
                           s2.defaultElevation⟩
            | none => ⟨s2.defaultHorizontalAngle, s2.defaultVerticalAngle,
                       s2.defaultElevation⟩
          { s2 with cameraHorizontalAngle := chosen.horizontalAngle,
                    cameraVerticalAngle := chosen.verticalAngle,
                    cameraElevation := chosen.elevation,
                    locationSettings := fun k =>
                      if k = locationId then some chosen else s2.locationSettings k }
    let s4 := { s3 with viewDirection := s3.cameraHorizontalAngle,
                        cameraIsLocationCamera := true }
    let s5 := updateView s4
    { s5 with originalControlsEnabled := some s5.controlsEnabled, controlsEnabled := false }

/-- Direct field write used by the UI layer to pan the camera
(the control panel assigns locationCamera.cameraHorizontalAngle). -/
def setHorizontalAngle (x : ℝ) (s : LocationCameraState) : LocationCameraState :=
  { s with cameraHorizontalAngle := x }

/-- Direct field write used by the UI layer to tilt the camera
(the control panel assigns locationCamera.cameraVerticalAngle). -/
def setVerticalAngle (x : ℝ) (s : LocationCameraState) : LocationCameraState :=
  { s with cameraVerticalAngle := x }

/-- The LocationCamera constructor state (second revision): inactive, no
location, no location camera, defaults 0 / 0 / 0.01, empty settings map,
followed by setEarth; the controls global starts enabled. -/
def freshLocationCamera : LocationCameraState :=
  { isActive := false
    activeLocation := none
    hasLocationCamera := false
    earthSet := true
    cameraHorizontalAngle := 0
    cameraVerticalAngle := 0
    cameraElevation := 0.01
    viewDirection := 0
    locationSettings := fun _ => none
    solarSystemSettings := none
    defaultHorizontalAngle := 0
    defaultVerticalAngle := 0
    defaultElevation := 0.01
    controlsEnabled := true
    originalControlsEnabled := none
    controlsTarget := ⟨0, 0, 0⟩
    cameraIsLocationCamera := false
    originalCameraSet := false
    pendingControlsEnable := false }

/-- Final state of the C3 scenario: activate Budapest, pan to 1.0 and
update; activate Kiruna, pan to 2.0 and update; reactivate Budapest. -/
noncomputable def persistenceScenarioFinal : LocationCameraState :=
  let locA : Location := ⟨"budapest", true⟩
  let locB : Location := ⟨"kiruna", true⟩
  let s1 := updateView (setHorizontalAngle 1.0 (activateView locA freshLocationCamera))
  let s2 := updateView (setHorizontalAngle 2.0 (activateView locB s1))
  activateView locA s2

theorem deactivateView_inactive (s : LocationCameraState) (h : s.isActive = false) :
    deactivateView s = s := by
  simp [deactivateView, h]

theorem deactivateView_isActive (s : LocationCameraState) :
    (deactivateView s).isActive = false ∨ (deactivateView s) = s := by
  by_cases h : s.isActive
  · left
    by_cases h2 : s.originalCameraSet <;> simp [deactivateView, h, h2]
  · right
    exact deactivateView_inactive s (by simpa using h)

theorem deactivateView_locationSettings (s : LocationCameraState) :
    (deactivateView s).locationSettings = s.locationSettings := by
  by_cases h : s.isActive <;> by_cases h2 : s.originalCameraSet <;>
    simp [deactivateView, h, h2]

theorem deactivateView_earthSet (s : LocationCameraState) :
    (deactivateView s).earthSet = s.earthSet := by
  by_cases h : s.isActive <;> by_cases h2 : s.originalCameraSet <;>
    simp [deactivateView, h, h2]

theorem deactivateView_solarSystemSettings (s : LocationCameraState) :
    (deactivateView s).solarSystemSettings = s.solarSystemSettings := by
  by_cases h : s.isActive <;> by_cases h2 : s.originalCameraSet <;>
    simp [deactivateView, h, h2]

theorem updateView_not_active (s : LocationCameraState)
    (h : s.isActive = false ∨ s.hasLocationCamera = false ∨ s.activeLocation = none ∨
      s.earthSet = false) :
    updateView s = s := by
  rcases heq : s.activeLocation with _ | loc
  · simp [updateView, heq]
  · rcases h with h | h | h | h
    · simp [updateView, heq, h]
    · simp [updateView, heq, h]
    · rw [heq] at h; cases h
    · simp [updateView, heq, h]

/-- C9: the error branches are silent no-ops.  Deactivating when no
location view is active changes nothing, so deactivation is idempotent;
and updateView returns the state unchanged when the location camera,
the active location, or the earth reference is unset. -/
theorem C9_error_branches_silent (s t u : LocationCameraState)
    (h1 : s.isActive = false)
    (h2 : t.hasLocationCamera = false ∨ t.activeLocation = none ∨ t.earthSet = false) :
    deactivateView s = s ∧
    updateView t = t ∧
    deactivateView (deactivateView u) = deactivateView u := by
  refine ⟨deactivateView_inactive s h1, ?_, ?_⟩
  · exact updateView_not_active t (Or.inr h2)
  · rcases deactivateView_isActive u with h | h
    · exact deactivateView_inactive _ h
    · rw [h]; exact h

/-- Witness for C9 at concrete inactive and unset states. -/
theorem C9_error_branches_silent_witness :
    freshLocationCamera.isActive = false ∧
    (freshLocationCamera.hasLocationCamera = false ∨
      freshLocationCamera.activeLocation = none ∨ freshLocationCamera.earthSet = false) ∧
    (deactivateView freshLocationCamera = freshLocationCamera ∧
      updateView freshLocationCamera = freshLocationCamera ∧
      deactivateView (deactivateView freshLocationCamera) =
        deactivateView freshLocationCamera) :=
  ⟨rfl, Or.inl rfl, C9_error_branches_silent _ _ _ rfl (Or.inl rfl)⟩

theorem pi_half_bounds : -(Real.pi / 2) + 0.1 ≤ Real.pi / 2 - 0.1 := by
  nlinarith [Real.pi_gt_three]

theorem clampVerticalAngle_mem (x : ℝ) :
    -(Real.pi / 2) + 0.1 ≤ clampVerticalAngle x ∧
      clampVerticalAngle x ≤ Real.pi / 2 - 0.1 :=
  ⟨le_max_left _ _, max_le pi_half_bounds (min_le_left _ _)⟩

theorem clampVerticalAngle_idem (x : ℝ) :
    clampVerticalAngle (clampVerticalAngle x) = clampVerticalAngle x := by
  have h := clampVerticalAngle_mem x
  conv_lhs => rw [clampVerticalAngle]
  rw [min_eq_right h.2, max_eq_right h.1]

theorem updateView_active (s : LocationCameraState) (loc : Location)
    (hloc : s.activeLocation = some loc) (hact : s.isActive = true)
    (hcam : s.hasLocationCamera = true) (he : s.earthSet = true) :
    (updateView s).cameraVerticalAngle = clampVerticalAngle s.cameraVerticalAngle ∧
    (updateView s).cameraHorizontalAngle = s.cameraHorizontalAngle ∧
    (updateView s).viewDirection = s.cameraHorizontalAngle ∧
    (updateView s).locationSettings (lowerKey loc.name) =
      some ⟨s.cameraHorizontalAngle, s.cameraVerticalAngle, s.cameraElevation⟩ ∧
    (updateView s).isActive = s.isActive ∧
    (updateView s).hasLocationCamera = s.hasLocationCamera ∧
    (updateView s).earthSet = s.earthSet ∧
    (updateView s).activeLocation = s.activeLocation ∧
    (updateView s).cameraElevation = s.cameraElevation := by
  simp [updateView, hloc, hact, hcam, he]

theorem updateView_iterate_vertical (m : ℕ) :
    ∀ (s : LocationCameraState) (loc : Location),
      s.activeLocation = some loc → s.isActive = true → s.hasLocationCamera = true →
      s.earthSet = true →
      (updateView^[m] (updateView s)).cameraVerticalAngle =
        clampVerticalAngle s.cameraVerticalAngle := by
  induction m with
  | zero =>
      intro s loc hloc hact hcam he
      exact (updateView_active s loc hloc hact hcam he).1
  | succ m ih =>
      intro s loc hloc hact hcam he
      have hs := updateView_active s loc hloc hact hcam he
      rw [Function.iterate_succ_apply]
      rw [ih (updateView s) loc (hs.2.2.2.2.2.2.2.1.trans hloc)
        (hs.2.2.2.2.1.trans hact) (hs.2.2.2.2.2.1.trans hcam) (hs.2.2.2.2.2.2.1.trans he)]
      rw [hs.1, clampVerticalAngle_idem]

/-- C8: the vertical-angle clamp is idempotent and applied after use.
Setting the vertical angle to x and running updateView any positive
number of times stores the same clamped value as running it once; the
settings entry written by that first updateView still records the
unclamped x (the clamp runs after the save and after the pose uses the
angle); and after any updateView the stored vertical angle lies inside
the clamp interval. -/
theorem C8_vertical_clamp (x : ℝ) (s : LocationCameraState) (loc : Location) (n : ℕ)
    (hloc : s.activeLocation = some loc) (hact : s.isActive = true)
    (hcam : s.hasLocationCamera = true) (he : s.earthSet = true) (hn : 1 ≤ n) :
    clampVerticalAngle (clampVerticalAngle x) = clampVerticalAngle x ∧
    (updateView^[n] (setVerticalAngle x s)).cameraVerticalAngle = clampVerticalAngle x ∧
    (updateView (setVerticalAngle x s)).locationSettings (lowerKey loc.name) =
      some ⟨s.cameraHorizontalAngle, x, s.cameraElevation⟩ ∧
    -(Real.pi / 2) + 0.1 ≤ clampVerticalAngle x ∧
    clampVerticalAngle x ≤ Real.pi / 2 - 0.1 := by
  obtain ⟨m, rfl⟩ : ∃ m, n = m + 1 := ⟨n - 1, (Nat.succ_pred_eq_of_pos hn).symm⟩
  have hset : (setVerticalAngle x s).activeLocation = some loc := hloc
  have hmem := clampVerticalAngle_mem x
  refine ⟨clampVerticalAngle_idem x, ?_, ?_, hmem.1, hmem.2⟩
  · rw [Function.iterate_succ_apply]
    exact updateView_iterate_vertical m (setVerticalAngle x s) loc hset hact hcam he
  · exact (updateView_active (setVerticalAngle x s) loc hset hact hcam he).2.2.2.1

/-- An activated camera state used to instantiate the clamp theorem. -/
def activeCameraSample : LocationCameraState :=
  { freshLocationCamera with
      isActive := true
      hasLocationCamera := true
      activeLocation := some (Location.mk "budapest" true) }

/-- Witness for C8 at a concrete active state, x = 2, two updates. -/
theorem C8_vertical_clamp_witness :
    activeCameraSample.activeLocation = some (Location.mk "budapest" true) ∧
    activeCameraSample.isActive = true ∧
    activeCameraSample.hasLocationCamera = true ∧
    activeCameraSample.earthSet = true ∧
    1 ≤ 2 ∧
    (clampVerticalAngle (clampVerticalAngle 2) = clampVerticalAngle 2 ∧
    (updateView^[2] (setVerticalAngle 2 activeCameraSample)).cameraVerticalAngle =
      clampVerticalAngle 2 ∧
    (updateView (setVerticalAngle 2 activeCameraSample)).locationSettings
        (lowerKey (Location.mk "budapest" true).name) =
      some ⟨activeCameraSample.cameraHorizontalAngle, 2,
        activeCameraSample.cameraElevation⟩ ∧
    -(Real.pi / 2) + 0.1 ≤ clampVerticalAngle 2 ∧
    clampVerticalAngle 2 ≤ Real.pi / 2 - 0.1) :=
  ⟨by rfl, by rfl, by rfl, by rfl, by norm_num,
    C8_vertical_clamp 2 activeCameraSample (Location.mk "budapest" true) 2
      (by rfl) (by rfl) (by rfl) (by rfl) (by norm_num)⟩

theorem activateView_restores (loc : Location) (s : LocationCameraState) (cs : CamSettings)
    (he : s.earthSet = true) (hm : loc.hasMesh = true)
    (hstored : s.locationSettings (lowerKey loc.name) = some cs) :
    (activateView loc s).cameraHorizontalAngle = cs.horizontalAngle ∧
    (activateView loc s).cameraElevation = cs.elevation ∧
    (activateView loc s).cameraVerticalAngle = clampVerticalAngle cs.verticalAngle := by
  by_cases hia : s.isActive
  · simp [activateView, updateView, he, hm, hia, deactivateView_locationSettings,
      deactivateView_earthSet, hstored]
  · simp [activateView, updateView, he, hm, hia, hstored]

/-- C3: per-location camera settings persist across activations.
Reactivating a location whose settings entry is stored restores the
stored horizontal angle and elevation exactly, and the stored vertical
angle up to the standard clamp applied by the updateView call that
activation triggers; and in the concrete scenario — activate Budapest,
set horizontalAngle 1.0 and update, activate Kiruna, set
horizontalAngle 2.0 and update, reactivate Budapest — the horizontal
angle reads back 1.0. -/
theorem C3_settings_persistence (loc : Location) (s : LocationCameraState)
    (cs : CamSettings) (he : s.earthSet = true) (hm : loc.hasMesh = true)
    (hstored : s.locationSettings (lowerKey loc.name) = some cs) :
    (activateView loc s).cameraHorizontalAngle = cs.horizontalAngle ∧
    (activateView loc s).cameraElevation = cs.elevation ∧
    (activateView loc s).cameraVerticalAngle = clampVerticalAngle cs.verticalAngle ∧
    persistenceScenarioFinal.cameraHorizontalAngle = 1.0 := by
  obtain ⟨h1, h2, h3⟩ := activateView_restores loc s cs he hm hstored
  refine ⟨h1, h2, h3, ?_⟩
  simp +decide [persistenceScenarioFinal, activateView, updateView, deactivateView,
    setHorizontalAngle, freshLocationCamera]

/-- A camera state holding a stored settings entry for Budapest, used to
instantiate the persistence theorem. -/
def storedSettingsSample : LocationCameraState :=
  { freshLocationCamera with
      locationSettings := fun k =>
        if k = "budapest" then some (CamSettings.mk 1 0 0.01) else none }

/-- Witness for C3 at the stored-settings sample state. -/
theorem C3_settings_persistence_witness :
    storedSettingsSample.earthSet = true ∧
    (Location.mk "budapest" true).hasMesh = true ∧
    storedSettingsSample.locationSettings (lowerKey (Location.mk "budapest" true).name) =
      some (CamSettings.mk 1 0 0.01) ∧
    ((activateView (Location.mk "budapest" true) storedSettingsSample).cameraHorizontalAngle =
        (CamSettings.mk 1 0 0.01).horizontalAngle ∧
      (activateView (Location.mk "budapest" true) storedSettingsSample).cameraElevation =
        (CamSettings.mk 1 0 0.01).elevation ∧
      (activateView (Location.mk "budapest" true) storedSettingsSample).cameraVerticalAngle =
        clampVerticalAngle (CamSettings.mk 1 0 0.01).verticalAngle ∧
      persistenceScenarioFinal.cameraHorizontalAngle = 1.0) := by
  have hstored : storedSettingsSample.locationSettings
      (lowerKey (Location.mk "budapest" true).name) = some (CamSettings.mk 1 0 0.01) := by
    simp +decide [storedSettingsSample, freshLocationCamera, lowerKey]
  exact ⟨rfl, rfl, hstored,
    C3_settings_persistence (Location.mk "budapest" true) storedSettingsSample
      (CamSettings.mk 1 0 0.01) rfl rfl hstored⟩

/-- Componentwise subtraction of vectors. -/
def Vec3.sub (a b : Vec3) : Vec3 := ⟨a.x - b.x, a.y - b.y, a.z - b.z⟩

theorem Vec3.smul_one_v (a : Vec3) : Vec3.smul 1 a = a := by
  rw [Vec3.ext_iff]
  refine ⟨?_, ?_, ?_⟩ <;> simp

theorem Vec3.smul_zero_v (a : Vec3) : Vec3.smul 0 a = ⟨0, 0, 0⟩ := by
  rw [Vec3.ext_iff]
  refine ⟨?_, ?_, ?_⟩ <;> simp

theorem Vec3.add_zero_v (a : Vec3) : Vec3.add a ⟨0, 0, 0⟩ = a := by
  rw [Vec3.ext_iff]
  refine ⟨?_, ?_, ?_⟩ <;> simp

theorem Vec3.sub_zero_v (a : Vec3) : Vec3.sub a ⟨0, 0, 0⟩ = a := by
  rw [Vec3.ext_iff]
  refine ⟨?_, ?_, ?_⟩ <;> simp [Vec3.sub]

theorem Vec3.dot_self_nonneg (a : Vec3) : 0 ≤ Vec3.dot a a := by
  simp only [Vec3.dot]
  nlinarith [mul_self_nonneg a.x, mul_self_nonneg a.y, mul_self_nonneg a.z]

theorem Vec3.dot_comm (a b : Vec3) : Vec3.dot a b = Vec3.dot b a := by
  simp only [Vec3.dot]
  ring

theorem Vec3.cross_add_right (u v w : Vec3) :
    Vec3.cross u (Vec3.add v w) = Vec3.add (Vec3.cross u v) (Vec3.cross u w) := by
  rw [Vec3.ext_iff]
  refine ⟨?_, ?_, ?_⟩ <;>
    · simp only [Vec3.cross, Vec3.add]
      ring

theorem Vec3.cross_smul_right (c : ℝ) (u v : Vec3) :
    Vec3.cross u (Vec3.smul c v) = Vec3.smul c (Vec3.cross u v) := by
  rw [Vec3.ext_iff]
  refine ⟨?_, ?_, ?_⟩ <;>
    · simp only [Vec3.cross, Vec3.smul]
      ring

theorem Vec3.dot_cross_self_left (u n : Vec3) : Vec3.dot u (Vec3.cross u n) = 0 := by
  simp only [Vec3.dot, Vec3.cross]
  ring

theorem Vec3.dot_cross_self_right (u e : Vec3) : Vec3.dot u (Vec3.cross e u) = 0 := by
  simp only [Vec3.dot, Vec3.cross]
  ring

theorem Vec3.triple_product (u e : Vec3) :
    Vec3.cross u (Vec3.cross e u) =
      Vec3.sub (Vec3.smul (Vec3.dot u u) e) (Vec3.smul (Vec3.dot u e) u) := by
  rw [Vec3.ext_iff]
  refine ⟨?_, ?_, ?_⟩ <;>
    · simp only [Vec3.cross, Vec3.sub, Vec3.smul, Vec3.dot]
      ring

theorem Vec3.lagrange (a b : Vec3) :
    Vec3.dot (Vec3.cross a b) (Vec3.cross a b) =
      Vec3.dot a a * Vec3.dot b b - Vec3.dot a b * Vec3.dot a b := by
  simp only [Vec3.dot, Vec3.cross]
  ring

theorem Vec3.dot_self_eq_zero (v : Vec3) (h : Vec3.dot v v = 0) : v = ⟨0, 0, 0⟩ := by
  simp only [Vec3.dot] at h
  have hx : v.x = 0 := by nlinarith [mul_self_nonneg v.x, mul_self_nonneg v.y, mul_self_nonneg v.z]
  have hy : v.y = 0 := by nlinarith [mul_self_nonneg v.x, mul_self_nonneg v.y, mul_self_nonneg v.z]
  have hz : v.z = 0 := by nlinarith [mul_self_nonneg v.x, mul_self_nonneg v.y, mul_self_nonneg v.z]
  rw [Vec3.ext_iff]
  exact ⟨hx, hy, hz⟩

theorem Vec3.dot_self_pos (v : Vec3) (h : v ≠ ⟨0, 0, 0⟩) : 0 < Vec3.dot v v := by
  rcases lt_or_eq_of_le (Vec3.dot_self_nonneg v) with hlt | heq
  · exact hlt
  · exact absurd (Vec3.dot_self_eq_zero v heq.symm) h

theorem Vec3.normalize_of_dot_one (v : Vec3) (h : Vec3.dot v v = 1) :
    Vec3.normalize v = v := by
  have hl : Vec3.length v = 1 := by rw [Vec3.length, h, Real.sqrt_one]
  rw [Vec3.normalize, hl]
  norm_num

theorem Vec3.normalize_dot_self (w : Vec3) (h : w ≠ ⟨0, 0, 0⟩) :
    Vec3.dot (Vec3.normalize w) (Vec3.normalize w) = 1 := by
  have hd := Vec3.dot_self_pos w h
  have hlpos : 0 < Vec3.length w := Real.sqrt_pos.mpr hd
  have hlne : Vec3.length w ≠ 0 := ne_of_gt hlpos
  have hmul : Vec3.length w * Vec3.length w = Vec3.dot w w := Real.mul_self_sqrt hd.le
  rw [Vec3.normalize, if_neg hlne]
  simp only [Vec3.dot] at hmul ⊢
  field_simp
  linarith [hmul]

theorem Vec3.dot_normalize_eq_zero (a w : Vec3) (h : Vec3.dot a w = 0) :
    Vec3.dot a (Vec3.normalize w) = 0 := by
  rw [Vec3.normalize]
  split
  · exact h
  · simp only [Vec3.dot] at h ⊢
    have : a.x * (w.x / Vec3.length w) + a.y * (w.y / Vec3.length w) +
        a.z * (w.z / Vec3.length w) =
        (a.x * w.x + a.y * w.y + a.z * w.z) / Vec3.length w := by ring
    rw [this, h, zero_div]

/-- Application of the rotation matrix built by
THREE.Matrix4.makeRotationAxis for a given axis and angle: the
Rodrigues rotation matrix (the source assumes the axis is unit). -/
noncomputable def makeRotationAxisApply (a : Vec3) (theta : ℝ) (v : Vec3) : Vec3 :=
  let c := Real.cos theta
  let s := Real.sin theta
  let t := 1 - c
  ⟨(t * a.x * a.x + c) * v.x + (t * a.x * a.y - s * a.z) * v.y +
      (t * a.x * a.z + s * a.y) * v.z,
   (t * a.x * a.y + s * a.z) * v.x + (t * a.y * a.y + c) * v.y +
      (t * a.y * a.z - s * a.x) * v.z,
   (t * a.x * a.z - s * a.y) * v.x + (t * a.y * a.z + s * a.x) * v.y +
      (t * a.z * a.z + c) * v.z⟩

theorem makeRotationAxisApply_rodrigues (a : Vec3) (theta : ℝ) (v : Vec3) :
    makeRotationAxisApply a theta v =
      Vec3.add (Vec3.add (Vec3.smul (Real.cos theta) v)
          (Vec3.smul (Real.sin theta) (Vec3.cross a v)))
        (Vec3.smul ((1 - Real.cos theta) * Vec3.dot a v) a) := by
  rw [Vec3.ext_iff]
  refine ⟨?_, ?_, ?_⟩ <;>
    · simp only [makeRotationAxisApply, Vec3.add, Vec3.smul, Vec3.cross, Vec3.dot]
      ring

theorem cross_rot_axis (u e : Vec3) (theta : ℝ)
    (huu : Vec3.dot u u = 1) (hue : Vec3.dot u e = 0) :
    Vec3.cross u (makeRotationAxisApply u theta (Vec3.cross e u)) =
      makeRotationAxisApply u theta e := by
  have hcs : Vec3.cross u (Vec3.cross e u) = e := by
    rw [Vec3.triple_product, huu, hue, Vec3.smul_one_v, Vec3.smul_zero_v, Vec3.sub_zero_v]
  rw [makeRotationAxisApply_rodrigues u theta (Vec3.cross e u),
    Vec3.dot_cross_self_right u e, mul_zero, Vec3.smul_zero_v, Vec3.add_zero_v,
    Vec3.cross_add_right, Vec3.cross_smul_right, Vec3.cross_smul_right, hcs,
    makeRotationAxisApply_rodrigues u theta e, hue, mul_zero, Vec3.smul_zero_v,
    Vec3.add_zero_v]

theorem rot_axis_unit (u e : Vec3) (theta : ℝ)
    (huu : Vec3.dot u u = 1) (hee : Vec3.dot e e = 1) (hue : Vec3.dot u e = 0) :
    Vec3.dot (makeRotationAxisApply u theta e) (makeRotationAxisApply u theta e) = 1 := by
  rw [makeRotationAxisApply_rodrigues u theta e, hue, mul_zero, Vec3.smul_zero_v,
    Vec3.add_zero_v]
  have hpyth := Real.sin_sq_add_cos_sq theta
  simp only [Vec3.dot, Vec3.add, Vec3.smul, Vec3.cross] at hee huu hue ⊢
  linear_combination
    (Real.cos theta ^ 2 + Real.sin theta ^ 2) * hee +
    (Real.sin theta ^ 2 * (e.x * e.x + e.y * e.y + e.z * e.z)) * huu -
    (Real.sin theta ^ 2 * (u.x * e.x + u.y * e.y + u.z * e.z)) * hue +
    hpyth

/-- First-revision rotated east axis (updateView, first revision): the
east basis vector, derived from the cross product of up and the north
pole direction, transformed by the horizontal rotation matrix about up. -/
noncomputable def rotatedEastByMatrix (up northPole : Vec3) (horizontalAngle : ℝ) : Vec3 :=
  let east := Vec3.normalize (Vec3.cross up northPole)
  makeRotationAxisApply up horizontalAngle east

/-- Second-revision rotated east axis (updateView, second revision): the
normalized cross product of up with the horizontally rotated view
direction, where the view direction is south rotated about up. -/
noncomputable def rotatedEastByCross (up northPole : Vec3) (horizontalAngle : ℝ) : Vec3 :=
  let east := Vec3.normalize (Vec3.cross up northPole)
  let south := Vec3.normalize (Vec3.cross east up)
  let viewDirection := makeRotationAxisApply up horizontalAngle south
  Vec3.normalize (Vec3.cross up viewDirection)

theorem rotated_east_key (u e : Vec3) (theta : ℝ)
    (huu : Vec3.dot u u = 1) (hee : Vec3.dot e e = 1) (hue : Vec3.dot u e = 0) :
    Vec3.normalize (Vec3.cross u
        (makeRotationAxisApply u theta (Vec3.normalize (Vec3.cross e u)))) =
      makeRotationAxisApply u theta e := by
  have hsouth : Vec3.normalize (Vec3.cross e u) = Vec3.cross e u := by
    apply Vec3.normalize_of_dot_one
    rw [Vec3.lagrange, hee, huu]
    have heu : Vec3.dot e u = 0 := (Vec3.dot_comm e u).trans hue
    rw [heu]
    ring
  rw [hsouth, cross_rot_axis u e theta huu hue]
  exact Vec3.normalize_of_dot_one _ (rot_axis_unit u e theta huu hee hue)

/-- C4: the two revisions of the rotated-east derivation agree in exact
arithmetic.  For a unit up vector and any north-pole direction not
parallel to it, rotating the original east vector by the horizontal
rotation about up (first revision) equals re-deriving east as the
normalized cross product of up with the horizontally rotated view
direction (second revision), so both revisions compute the same view
direction. -/
theorem C4_rotated_east_equivalence (up northPole : Vec3) (horizontalAngle : ℝ)
    (hu : Vec3.length up = 1) (hc : Vec3.cross up northPole ≠ ⟨0, 0, 0⟩) :
    rotatedEastByCross up northPole horizontalAngle =
      rotatedEastByMatrix up northPole horizontalAngle := by
  have h0 : 0 ≤ Vec3.dot up up := Vec3.dot_self_nonneg up
  have huu : Vec3.dot up up = 1 := by
    have hm := Real.mul_self_sqrt h0
    rw [Vec3.length] at hu
    rw [← hm, hu, one_mul]
  have hee : Vec3.dot (Vec3.normalize (Vec3.cross up northPole))
      (Vec3.normalize (Vec3.cross up northPole)) = 1 :=
    Vec3.normalize_dot_self _ hc
  have hue : Vec3.dot up (Vec3.normalize (Vec3.cross up northPole)) = 0 :=
    Vec3.dot_normalize_eq_zero up _ (Vec3.dot_cross_self_left up northPole)
  simp only [rotatedEastByCross, rotatedEastByMatrix]
  exact rotated_east_key up (Vec3.normalize (Vec3.cross up northPole)) horizontalAngle
    huu hee hue

/-- Witness for C4 with up = (1,0,0), northPole = (0,1,0), angle 0.5. -/
theorem C4_rotated_east_equivalence_witness :
    Vec3.length ⟨1, 0, 0⟩ = 1 ∧
    Vec3.cross ⟨1, 0, 0⟩ ⟨0, 1, 0⟩ ≠ (⟨0, 0, 0⟩ : Vec3) ∧
    rotatedEastByCross ⟨1, 0, 0⟩ ⟨0, 1, 0⟩ 0.5 =
      rotatedEastByMatrix ⟨1, 0, 0⟩ ⟨0, 1, 0⟩ 0.5 := by
  have h1 : Vec3.length ⟨1, 0, 0⟩ = 1 := by
    rw [Vec3.length]
    simp [Vec3.dot]
  have h2 : Vec3.cross ⟨1, 0, 0⟩ ⟨0, 1, 0⟩ ≠ (⟨0, 0, 0⟩ : Vec3) := by
    simp only [Vec3.cross]
    intro h
    rw [Vec3.ext_iff] at h
    norm_num at h
  exact ⟨h1, h2, C4_rotated_east_equivalence ⟨1, 0, 0⟩ ⟨0, 1, 0⟩ 0.5 h1 h2⟩

end SolarSystemModel
